import Mathlib

/-!
Verification of the steepest-descent solver (`moola/algorithms/steepest_descent.py`).

The solver is embedded shallowly:

* Scalars (objective values, tolerances, step lengths) are rationals `ℚ`.
* Iterates live on an explicit heap (`Heap`): `m.__class__(m)` (Python clone via the
  constructor) allocates a fresh cell, `axpy` writes a cell in place.  Function-local
  temporaries that never escape (`tmpm` inside `phi`/`phi_dphi`) are evaluated at the
  value level.
* The `while True` loop is fuel-indexed: running out of fuel is the `fuelOut` outcome,
  a break through the convergence test is `success`, and the
  `raise RuntimeError` on a non-descent direction is `descentError`.
* Hook calls, the optional callback and calls to the line-search strategy are recorded
  in an event trace, so that claims about hook invocation can be stated.
* Python 2 comparison semantics are modelled where the source relies on them:
  `True` compares as the number `1`, `None` compares below every number, and a value
  of a non-numeric type (such as the builtin function `iter`) compares above every
  number.
-/

attribute [local semireducible] Rat.mul Rat.add Rat.sub Rat.inv

namespace Moola

/-- A heap of iterate objects: a store indexed by addresses and the next free address.
`mem` is total; addresses at or above `next` are unallocated garbage. -/
structure Heap (V : Type) where
  mem : ℕ → V
  next : ℕ

def Heap.read {V : Type} (h : Heap V) (a : ℕ) : V := h.mem a

/-- Allocate a fresh cell holding `v`; returns the new heap and the cell's address. -/
def Heap.alloc {V : Type} (h : Heap V) (v : V) : Heap V × ℕ :=
  (⟨fun a => if a = h.next then v else h.mem a, h.next + 1⟩, h.next)

/-- Overwrite the cell at address `a` (models an in-place `axpy`). -/
def Heap.write {V : Type} (h : Heap V) (a : ℕ) (v : V) : Heap V :=
  ⟨fun x => if x = a then v else h.mem x, h.next⟩

/-- The vector capability consumed by the solver: value-level `axpy`
(`self.axpy(s, d)` produces `self + s*d`), inner product, L2 norm, and negation
(used by `-grad` in the callback call). -/
structure IterOps (V : Type) where
  axpyVal : V → ℚ → V → V
  inner : V → V → ℚ
  normL2 : V → ℚ
  neg : V → V

/-- The objective capability `problem.obj`: value `obj(m)`, gradient `obj.gradient(m)`,
and directional derivative `obj.derivative(m)(d)`. -/
structure Objective (V : Type) where
  val : V → ℚ
  gradient : V → V
  derivative : V → V → ℚ

/-- A line-search strategy: `ls.search(phi, phi_dphi)` returns a step length. -/
def LineSearch : Type := (ℚ → ℚ) → (ℚ → ℚ × ℚ) → ℚ

/-- Solver configuration (`__init__`, lines 27-36): the three optional stopping
parameters, the display flag, and presence flags for the two hooks and the callback. -/
structure Config where
  tol : Option ℚ
  gtol : Option ℚ
  maxiter : Option ℕ
  disp : Bool
  hasBefore : Bool
  hasAfter : Bool
  hasCallback : Bool

/-- Events recorded during `solve`: hook invocations (with their arguments),
calls to the line-search strategy, and callback invocations. -/
inductive Event (V : Type) where
  | beforeE (j : ℚ) (g : V)
  | lsE
  | cbE
  | afterE (j : ℚ) (g : V)
  deriving DecidableEq

/-- The mutable loop state of `solve`: the heap, the objective values `j`/`j_prev`
(each `None` until assigned), the addresses of `m` and `m_prev`, and the counter `it`. -/
structure LoopState (V : Type) where
  heap : Heap V
  j : Option ℚ
  j_prev : Option ℚ
  m : ℕ
  m_prev : ℕ
  it : ℕ

/-- How one call to `solve` ends: a break out of the loop (`success`, carrying the
final state and the last gradient), the `RuntimeError` raised on a non-descent
direction, or fuel exhaustion (the loop is still running). -/
inductive Outcome (V : Type) where
  | success (st : LoopState V) (grad : V)
  | descentError (st : LoopState V) (grad : V)
  | fuelOut (st : LoopState V)

/-- Gradient-norm clause of the convergence test (line 77):
`self.gtol == None or grad.norm("L2") > self.gtol`. -/
def gtolClause (gtol : Option ℚ) (n : ℚ) : Bool :=
  match gtol with
  | none => true
  | some g => n > g

/-- The parenthesised `or`-chain of line 78,
`(self.tol == None or j == None or j_prev == None or abs(j-j_prev))`.
Python `or` yields the first truthy operand, so the chain yields the boolean `True`
(which compares as the number `1`) when any of the three `None`-tests holds, and the
float `abs(j-j_prev)` otherwise. -/
def tolParen (tol : Option ℚ) (j j_prev : Option ℚ) : ℚ :=
  match tol, j, j_prev with
  | none, _, _ => 1
  | _, none, _ => 1
  | _, _, none => 1
  | some _, some a, some b => |a - b|

/-- Python 2 comparison `x > t` for a number `x` and `t` either a number or `None`
(`None` compares below every number). -/
def py2GtOpt (x : ℚ) (t : Option ℚ) : Bool :=
  match t with
  | none => true
  | some q => x > q

/-- Functional-change clause of the convergence test, exactly as written on line 78:
the parenthesised `or`-chain compared against `self.tol`. -/
def tolClause (tol : Option ℚ) (j j_prev : Option ℚ) : Bool :=
  py2GtOpt (tolParen tol j j_prev) tol

/-- Iteration-budget clause (line 79): `self.maxiter == None or it < self.maxiter`. -/
def maxiterClause (maxiter : Option ℕ) (it : ℕ) : Bool :=
  match maxiter with
  | none => true
  | some M => it < M

/-- The conjunction inside `if not (...)` on lines 77-79; the loop breaks when this
is false. -/
def continueCond (cfg : Config) (n : ℚ) (j j_prev : Option ℚ) (it : ℕ) : Bool :=
  gtolClause cfg.gtol n && tolClause cfg.tol j j_prev && maxiterClause cfg.maxiter it

/-- The reduced one-dimensional function `phi` (lines 89-93):
clone `m_prev`, apply `axpy(-alpha, grad)` in place to the clone, evaluate the
objective there.  The clone is function-local, so it is evaluated at the value level. -/
def phi {V : Type} (ops : IterOps V) (obj : Objective V) (m_prev grad : V) (α : ℚ) : ℚ :=
  obj.val (ops.axpyVal m_prev (-α) grad)

/-- The paired value/derivative function `phi_dphi` (lines 95-101): it rebuilds the
trial point `tmpm`, recomputes `p = phi(alpha)`, and returns
`(p, -obj.derivative(tmpm)(grad))`. -/
def phi_dphi {V : Type} (ops : IterOps V) (obj : Objective V) (m_prev grad : V)
    (α : ℚ) : ℚ × ℚ :=
  let tmpm := ops.axpyVal m_prev (-α) grad
  (phi ops obj m_prev grad α, -(obj.derivative tmpm grad))

/-- The optimisation loop of `solve` (lines 62-120), fuel-indexed.  Each pass:
evaluate `j` (only when unset) and the gradient, fire the `before_iteration` hook,
test convergence, check the descent direction, call the line search, commit the
updated iterate through clone-then-`axpy`, advance the state, and fire the callback
and the `after_iteration` hook.  Returns the outcome and the event trace. -/
def solveLoop {V : Type} (fuel : ℕ) (cfg : Config) (ls : LineSearch)
    (obj : Objective V) (ops : IterOps V) (st : LoopState V) :
    Outcome V × List (Event V) :=
  match fuel with
  | 0 => (Outcome.fuelOut st, [])
  | fuel + 1 =>
    let mVal := st.heap.read st.m
    let j := match st.j with
             | none => obj.val mVal
             | some jv => jv
    let grad := obj.gradient mVal
    let evB : List (Event V) := if cfg.hasBefore then [Event.beforeE j grad] else []
    let n := ops.normL2 grad
    if continueCond cfg n (some j) st.j_prev st.it then
      let djs := -(ops.inner grad grad)
      if djs ≥ 0 then
        (Outcome.descentError { st with j := some j } grad, evB)
      else
        let m_prevVal := st.heap.read st.m_prev
        let α := ls (phi ops obj m_prevVal grad) (phi_dphi ops obj m_prevVal grad)
        let allocM := st.heap.alloc m_prevVal
        let h2 := allocM.1.write allocM.2
                    (ops.axpyVal (allocM.1.read allocM.2) (-α) grad)
        let j_new := phi ops obj m_prevVal grad α
        let allocP := h2.alloc (h2.read allocM.2)
        let st' : LoopState V :=
          ⟨allocP.1, some j_new, some j, allocM.2, allocP.2, st.it + 1⟩
        let evC : List (Event V) := if cfg.hasCallback then [Event.cbE] else []
        let evA : List (Event V) :=
          if cfg.hasAfter then [Event.afterE j_new grad] else []
        let rest := solveLoop fuel cfg ls obj ops st'
        (rest.1, evB ++ Event.lsE :: (evC ++ evA ++ rest.2))
    else
      (Outcome.success { st with j := some j } grad, evB)

/-- Entry of `solve` (lines 54-61): `j = j_prev = None`, `m_prev = m.__class__(m)`
(a fresh clone of the caller's iterate), `it = 0`, then the loop. -/
def solve {V : Type} (fuel : ℕ) (cfg : Config) (ls : LineSearch)
    (obj : Objective V) (ops : IterOps V) (h0 : Heap V) (m0 : ℕ) :
    Outcome V × List (Event V) :=
  let allocP := h0.alloc (h0.read m0)
  solveLoop fuel cfg ls obj ops ⟨allocP.1, none, none, m0, allocP.2, 0⟩

/-- The `Solution` record (lines 132-133): the `"Optimizer"` iterate and the
`"Number of iterations"` count. -/
structure Solution (V : Type) where
  optimizer : V
  iterations : ℕ
  deriving DecidableEq

/-- The `Solution` returned by `solve`, if the loop broke (the two error outcomes
never reach line 132). -/
def Outcome.toSolution {V : Type} : Outcome V → Option (Solution V)
  | .success st _ => some ⟨st.heap.read st.m, st.it⟩
  | _ => none

/-- The reported iteration count, if the loop broke. -/
def Outcome.solutionIters {V : Type} : Outcome V → Option ℕ
  | .success st _ => some st.it
  | _ => none

/-- Whether the outcome is the `RuntimeError` raised when the negative gradient is
not a descent direction. -/
def Outcome.isDescentError {V : Type} : Outcome V → Bool
  | .descentError _ _ => true
  | _ => false

/-- The heap as it stands when `solve` returns or raises. -/
def Outcome.finalHeap {V : Type} : Outcome V → Heap V
  | .success st _ => st.heap
  | .descentError st _ => st.heap
  | .fuelOut st => st.heap

/-- The loop counter `it` as it stands when `solve` stops: the number of completed
iterations. -/
def Outcome.itOf {V : Type} : Outcome V → ℕ
  | .success st _ => st.it
  | .descentError st _ => st.it
  | .fuelOut st => st.it

/-- A Python 2 value appearing in the final-report comparison of line 125:
either a number or a builtin function (the bare name `iter` on that line denotes
the builtin iterator constructor, not the loop counter `it`). -/
inductive Py2Val where
  | num (q : ℚ)
  | builtinFunc (name : String)

/-- CPython 2 mixed-type comparison `x <= y`: values of numeric types compare below
values of every non-numeric type, such as builtin functions.  Two builtin functions
are only known to satisfy `<=` when they are the same object; only the comparisons
the final report performs are relied upon. -/
def Py2Val.le : Py2Val → Py2Val → Bool
  | .num a, .num b => a ≤ b
  | .num _, .builtinFunc _ => true
  | .builtinFunc _, .num _ => false
  | .builtinFunc a, .builtinFunc b => a == b

/-- The three human-readable termination messages of lines 126, 128 and 130. -/
inductive Msg where
  | maxiterReached
  | gtolReached
  | tolReached
  deriving DecidableEq

/-- Line 125: `self.maxiter != None and iter <= self.maxiter`, where `iter` is the
Python builtin function, compared against the number `maxiter`. -/
def maxiterMsgCond (maxiter : Option ℕ) : Bool :=
  match maxiter with
  | none => false
  | some M => Py2Val.le (.builtinFunc "iter") (.num (M : ℚ))

/-- Line 127: `self.gtol != None and n <= self.gtol`. -/
def gtolMsgCond (gtol : Option ℚ) (n : ℚ) : Bool :=
  match gtol with
  | none => false
  | some g => n ≤ g

/-- Line 129: `self.tol != None and j_prev != None and abs(j-j_prev) <= self.tol`. -/
def tolMsgCond (tol : Option ℚ) (j : ℚ) (j_prev : Option ℚ) : Bool :=
  match tol, j_prev with
  | some t, some jp => |j - jp| ≤ t
  | _, _ => false

/-- The termination message printed after the loop (lines 122-130): nothing unless
`disp` is set, otherwise the first of the three `if`/`elif` branches whose condition
holds (possibly none). -/
def reportMsg (cfg : Config) (n j : ℚ) (j_prev : Option ℚ) : Option Msg :=
  if cfg.disp then
    if maxiterMsgCond cfg.maxiter then some .maxiterReached
    else if gtolMsgCond cfg.gtol n then some .gtolReached
    else if tolMsgCond cfg.tol j j_prev then some .tolReached
    else none
  else none

/-- The termination message of a finished `solve` call: the report runs only when
the loop broke (both error outcomes propagate past line 122). -/
def Outcome.reportOf {V : Type} (ops : IterOps V) (cfg : Config) :
    Outcome V → Option Msg
  | .success st g => reportMsg cfg (ops.normL2 g) (st.j.getD 0) st.j_prev
  | _ => none

/-! ### Concrete one-dimensional instances, used for witnesses and counterexamples -/

/-- One-dimensional iterates: `V = ℚ` with the standard operations. -/
def ops1 : IterOps ℚ :=
  ⟨fun self a d => self + a * d, fun x y => x * y, fun x => |x|, fun x => -x⟩

/-- The objective `f(x) = x^2` with its correct gradient `2x` and directional
derivative `2 x d`. -/
def quadObj : Objective ℚ :=
  ⟨fun x => x * x, fun x => 2 * x, fun x d => 2 * x * d⟩

/-- The objective `f(x) = x^2` with a sign-inverted gradient evaluator (`-2x`
instead of `2x`); the derivative functional is the correct one. -/
def quadObjInv : Objective ℚ :=
  ⟨fun x => x * x, fun x => -(2 * x), fun x d => 2 * x * d⟩

/-- A heap holding the single iterate `4` at address `0`. -/
def heap4 : Heap ℚ := ⟨fun _ => 4, 1⟩

/-- A line-search strategy that always returns the step length `1/2` (the exact
minimiser of the quadratic restriction of `quadObj`). -/
def lsHalf : LineSearch := fun _ _ => 1/2

/-- A line-search strategy that always returns the step length `1`. -/
def lsOne : LineSearch := fun _ _ => 1

/-! ### Heap lemmas -/

theorem Heap.read_alloc_self {V : Type} (h : Heap V) (a : ℕ) :
    ((h.alloc (h.read a)).1).read a = h.read a := by
  simp only [Heap.alloc, Heap.read]
  split <;> rfl

theorem Heap.read_alloc_of_lt {V : Type} (h : Heap V) (v : V) (a : ℕ)
    (ha : a < h.next) : ((h.alloc v).1).read a = h.read a := by
  simp only [Heap.alloc, Heap.read]
  rw [if_neg (Nat.ne_of_lt ha)]

theorem Heap.read_write_of_ne {V : Type} (h : Heap V) (b : ℕ) (v : V) (a : ℕ)
    (ha : a ≠ b) : ((h.write b v).read a) = h.read a := by
  simp only [Heap.write, Heap.read]
  rw [if_neg ha]

/-! ### Claims -/

/-- **C1** (corrected), counterexample.  With `tol = 1` (set), `gtol` unset and
`maxiter = 5`, the spec's reading of the functional-change clause (vacuously true on
the first iteration, when `j_prev` is unset) would let the loop run; the code instead
breaks at the very first convergence test — the clause compares the boolean `True`
(numerically `1`) against `tol`, and `1 > 1` fails — returning zero iterations.  The
second conjunct exhibits the clause itself evaluating to false on a first-iteration
state. -/
theorem tolClause_firstIteration_cex :
    (solve 5 ⟨some 1, none, some 5, true, false, false, false⟩ lsHalf quadObj ops1
      heap4 0).1.solutionIters = some 0 ∧
    tolClause (some 1) (some 16) none = false :=
  ⟨by decide, by decide⟩

/-- **C1** (corrected), amended claim.  With `tol` unset the functional-change clause
always lets the loop continue.  With `tol` set and both `j` and `j_prev` set (every
iteration after the first), the clause is `|j - j_prev| > tol`, as the spec states.
But on the first iteration (`j_prev` unset) the clause is *not* vacuously true: the
parenthesised `or`-chain yields the boolean `True`, which Python compares as the
number `1`, so the clause reads `1 > tol` and continues only when `tol < 1`. -/
theorem tolClause_spec (t a b : ℚ) (j jp : Option ℚ) :
    tolClause none j jp = true ∧
    tolClause (some t) (some a) (some b) = decide (|a - b| > t) ∧
    tolClause (some t) (some a) none = decide ((1 : ℚ) > t) := by
  refine ⟨?_, rfl, rfl⟩
  cases j <;> cases jp <;> rfl

/-- **C5** (corrected), counterexample.  For the one-dimensional quadratic objective
at `m_prev = 4`, `grad = 8`, `alpha = 0`, the trial point is `4` and the directional
derivative of the objective there along `grad` is `2*4*8 = 64`; but
`phi_dphi(0)` returns `-64` as its second component — the *negation* of that
directional derivative — while its first component does equal `phi(0) = 16`. -/
theorem phi_dphi_sign_cex :
    (phi_dphi ops1 quadObj 4 8 0).2 ≠
      quadObj.derivative (ops1.axpyVal 4 (-(0 : ℚ)) 8) 8 ∧
    quadObj.derivative (ops1.axpyVal 4 (-(0 : ℚ)) 8) 8 = 64 ∧
    (phi_dphi ops1 quadObj 4 8 0).2 = -64 ∧
    (phi_dphi ops1 quadObj 4 8 0).1 = phi ops1 quadObj 4 8 0 := by
  refine ⟨by decide, by decide, by decide, rfl⟩

/-- **C5** (corrected), amended claim.  For every step length `alpha`, the scalar
restriction satisfies `phi(alpha) = obj(clone(m_prev) after axpy(-alpha, grad))`, and
`phi_dphi(alpha)` returns the pair whose first component equals `phi(alpha)` and whose
second component is the **negation** of the directional derivative of the objective at
the trial point along `grad` (equivalently, the directional derivative along the
search direction `-grad`). -/
theorem phi_dphi_spec {V : Type} (ops : IterOps V) (obj : Objective V)
    (m_prev grad : V) (α : ℚ) :
    phi ops obj m_prev grad α = obj.val (ops.axpyVal m_prev (-α) grad) ∧
    (phi_dphi ops obj m_prev grad α).1 = phi ops obj m_prev grad α ∧
    (phi_dphi ops obj m_prev grad α).2 =
      -(obj.derivative (ops.axpyVal m_prev (-α) grad) grad) :=
  ⟨rfl, rfl, rfl⟩

/-- The `iter <= self.maxiter` branch condition of line 125 never holds when
`maxiter` is a number: the builtin function `iter` compares above every number in
CPython 2. -/
theorem maxiterMsgCond_eq_false (maxiter : Option ℕ) :
    maxiterMsgCond maxiter = false := by
  cases maxiter <;> rfl

/-- **C4** (corrected), counterexample.  A `solve` run with `maxiter = 0` (and the
other criteria unset, display on) terminates through the iteration-budget criterion
(`it = 0 >= maxiter = 0`; third conjunct: the budget clause fails at the final
state), yet the termination report prints nothing at all — in particular not the
"Maximum number of iterations reached" message — because line 125 compares the
builtin `iter`, not the counter `it`, against `maxiter`. -/
theorem maxiter_msg_not_printed_cex :
    (solve 1 ⟨none, none, some 0, true, false, false, false⟩ lsHalf quadObj ops1
      heap4 0).1.reportOf ops1 ⟨none, none, some 0, true, false, false, false⟩
      = none ∧
    (solve 1 ⟨none, none, some 0, true, false, false, false⟩ lsHalf quadObj ops1
      heap4 0).1.solutionIters = some 0 ∧
    maxiterClause (some 0) 0 = false := by
  refine ⟨by decide, by decide, rfl⟩

/-- **C4** (corrected), amended claim.  The "Maximum number of iterations reached"
message is *never* printed (the branch compares the builtin `iter` against
`maxiter`, and a builtin function is above every number in CPython 2); the
gradient-tolerance message is printed iff display is on, `gtol` is set and the final
gradient norm is at most `gtol`; the functional-change message is printed iff display
is on, the gradient branch did not fire, `tol` and `j_prev` are set and
`|j - j_prev| <= tol` at the final state. -/
theorem reportMsg_spec (cfg : Config) (n j : ℚ) (jp : Option ℚ) :
    reportMsg cfg n j jp ≠ some Msg.maxiterReached ∧
    (reportMsg cfg n j jp = some Msg.gtolReached ↔
      cfg.disp = true ∧ ∃ g, cfg.gtol = some g ∧ n ≤ g) ∧
    (reportMsg cfg n j jp = some Msg.tolReached ↔
      cfg.disp = true ∧ gtolMsgCond cfg.gtol n = false ∧
        ∃ t jpv, cfg.tol = some t ∧ jp = some jpv ∧ |j - jpv| ≤ t) := by
  obtain ⟨tol, gtol, maxiter, disp, hb, ha, hc⟩ := cfg
  simp only [reportMsg, maxiterMsgCond_eq_false, Bool.false_eq_true, if_false]
  cases disp
  · simp
  · cases gtol <;> cases tol <;> cases jp <;>
      simp [gtolMsgCond, tolMsgCond]
    all_goals try (split <;> simp_all)

/-- **C9** (confirmed).  With `tol` set to any value `>= 1`, `solve` breaks out of
the loop at the very first convergence test, whatever the other criteria are: the
functional-change clause evaluates the boolean `True` (numerically `1`) against
`tol`, `1 > tol` fails, and the returned `Solution` reports zero iterations with the
(unmutated) input iterate as optimizer. -/
theorem tol_ge_one_zero_iterations {V : Type} (f m0 : ℕ) (t : ℚ) (g : Option ℚ)
    (M : Option ℕ) (d hb ha hc : Bool) (ls : LineSearch) (obj : Objective V)
    (ops : IterOps V) (h0 : Heap V) (ht : 1 ≤ t) :
    (solve (f + 1) ⟨some t, g, M, d, hb, ha, hc⟩ ls obj ops h0 m0).1.toSolution
      = some ⟨h0.read m0, 0⟩ := by
  have htol : tolClause (some t) (some (obj.val (h0.read m0))) none = false := by
    simp only [tolClause, tolParen, py2GtOpt]
    exact decide_eq_false (not_lt.mpr ht)
  simp only [solve, solveLoop, Heap.read_alloc_self, continueCond, htol,
    Bool.false_and, Bool.and_false, Bool.false_eq_true, if_false,
    Outcome.toSolution]

/-- **C9** witness: the general theorem applied at `tol = 1` on the concrete
one-dimensional quadratic problem. -/
theorem tol_ge_one_zero_iterations_witness :
    (1 : ℚ) ≤ 1 ∧
    (solve 1 ⟨some 1, none, some 5, false, false, false, false⟩ lsHalf quadObj ops1
      heap4 0).1.toSolution = some ⟨4, 0⟩ := by
  refine ⟨le_refl 1, ?_⟩
  have h := tol_ge_one_zero_iterations (V := ℚ) 0 0 1 none (some 5) false false false
    false lsHalf quadObj ops1 heap4 (le_refl 1)
  simpa [heap4, Heap.read] using h

/-- **C6** (confirmed).  For every problem, iterate capability and initial iterate,
`solve` with `maxiter = 0` and `tol`, `gtol` unset returns right away: the returned
`Solution` has iteration count `0` and carries, by value, exactly the caller's input
iterate; the line search is never invoked, and the cell holding the caller's iterate
is untouched. -/
theorem maxiter_zero_returns_input {V : Type} (f m0 : ℕ) (d hb ha hc : Bool)
    (ls : LineSearch) (obj : Objective V) (ops : IterOps V) (h0 : Heap V) :
    (solve (f + 1) ⟨none, none, some 0, d, hb, ha, hc⟩ ls obj ops h0 m0).1.toSolution
      = some ⟨h0.read m0, 0⟩ ∧
    Event.lsE ∉ (solve (f + 1) ⟨none, none, some 0, d, hb, ha, hc⟩ ls obj ops
      h0 m0).2 ∧
    (solve (f + 1) ⟨none, none, some 0, d, hb, ha, hc⟩ ls obj ops
      h0 m0).1.finalHeap.read m0 = h0.read m0 := by
  have hmax : maxiterClause (some 0) 0 = false := rfl
  refine ⟨?_, ?_, ?_⟩
  · simp only [solve, solveLoop, continueCond, hmax, Bool.and_false,
      Bool.false_eq_true, if_false, Outcome.toSolution, Heap.read_alloc_self]
  · simp only [solve, solveLoop, continueCond, hmax, Bool.and_false,
      Bool.false_eq_true, if_false]
    cases hb <;> simp
  · simp only [solve, solveLoop, continueCond, hmax, Bool.and_false,
      Bool.false_eq_true, if_false, Outcome.finalHeap, Heap.read_alloc_self]

/-- With all three stopping parameters unset, every pass of the convergence test
lets the loop continue: each clause is vacuously satisfied (`gtol`/`maxiter` by
their `== None` disjunct; the `tol` clause because the `or`-chain yields `True`,
and any number is above `None` in Python 2). -/
theorem allNone_continueCond (d hb ha hc : Bool) (n : ℚ) (j jp : Option ℚ)
    (it : ℕ) :
    continueCond ⟨none, none, none, d, hb, ha, hc⟩ n j jp it = true := by
  cases j <;> cases jp <;> rfl

/-- **C3** (corrected), counterexample.  With `tol`, `gtol` and `maxiter` all unset,
no error of any kind is raised before iterating: the loop is entered and a full
iteration runs — the line search is invoked and the counter advances to `1` — and
the loop never broke (`solutionIters = none` after the budgeted pass). -/
theorem allNone_enters_loop_cex :
    (solve 1 ⟨none, none, none, true, true, false, false⟩ lsOne quadObj ops1 heap4
      0).1.itOf = 1 ∧
    Event.lsE ∈ (solve 1 ⟨none, none, none, true, true, false, false⟩ lsOne quadObj
      ops1 heap4 0).2 ∧
    (solve 1 ⟨none, none, none, true, true, false, false⟩ lsOne quadObj ops1 heap4
      0).1.solutionIters = none :=
  ⟨by decide, by decide, by decide⟩

/-- **C3** (corrected), amended claim.  The constructor performs no validation of the
stopping criteria and `solve` raises no configuration error; instead, when `tol`,
`gtol` and `maxiter` are all unset, the convergence test never breaks, so `solve`
never returns a `Solution`, however much fuel the loop is given (each pass either
completes an iteration or dies on the descent-direction check). -/
theorem allNone_never_converges {V : Type} (fuel : ℕ) (d hb ha hc : Bool)
    (ls : LineSearch) (obj : Objective V) (ops : IterOps V) (h0 : Heap V)
    (m0 : ℕ) :
    (solve fuel ⟨none, none, none, d, hb, ha, hc⟩ ls obj ops h0
      m0).1.solutionIters = none := by
  suffices h : ∀ st : LoopState V,
      (solveLoop fuel ⟨none, none, none, d, hb, ha, hc⟩ ls obj ops
        st).1.solutionIters = none by
    exact h _
  induction fuel with
  | zero => intro st; rfl
  | succ f ih =>
    intro st
    simp only [solveLoop, allNone_continueCond, if_true]
    split
    · rfl
    · exact ih _

/-- Reading a pre-existing address through one iteration's heap traffic (clone of
`m_prev`, in-place `axpy` on that fresh clone, clone of the committed `m`) gives the
original value: both clones live at fresh addresses and the only write targets the
first clone. -/
theorem step_heap_read {V : Type} (h : Heap V) (v w y : V) (a : ℕ)
    (ha : a < h.next) :
    ((((h.alloc v).1.write (h.alloc v).2 w).alloc y).1).read a = h.read a := by
  rw [Heap.read_alloc_of_lt _ y a (by
    show a < ((h.alloc v).1.write (h.alloc v).2 w).next
    simp only [Heap.alloc, Heap.write]
    omega)]
  rw [Heap.read_write_of_ne _ ((h.alloc v).2) w a (by
    show a ≠ h.next
    exact Nat.ne_of_lt ha)]
  exact Heap.read_alloc_of_lt h v a ha

/-- During the whole loop, no cell that existed when the loop started is ever
written: each iteration allocates two fresh clones and applies `axpy` only to the
first of them. -/
theorem solveLoop_heap_stable {V : Type} (fuel : ℕ) (cfg : Config)
    (ls : LineSearch) (obj : Objective V) (ops : IterOps V) :
    ∀ (st : LoopState V) (a : ℕ), a < st.heap.next →
      (solveLoop fuel cfg ls obj ops st).1.finalHeap.read a = st.heap.read a := by
  induction fuel with
  | zero => intro st a _; rfl
  | succ f ih =>
    intro st a ha
    simp only [solveLoop]
    split
    · split
      · rfl
      · refine (ih _ a ?_).trans (step_heap_read st.heap _ _ _ a ha)
        show a < st.heap.next + 1 + 1
        omega
    · rfl

/-- **C8** (confirmed).  `solve` never mutates a caller-owned cell: whether it
returns a `Solution`, raises the descent-direction error or runs out of fuel, every
address that was allocated before the call — in particular the one holding the
initial iterate — still holds the value it had on entry (the solver clones before
every `axpy`). -/
theorem solve_preserves_caller_heap {V : Type} (fuel m0 a : ℕ) (cfg : Config)
    (ls : LineSearch) (obj : Objective V) (ops : IterOps V) (h0 : Heap V)
    (ha : a < h0.next) :
    (solve fuel cfg ls obj ops h0 m0).1.finalHeap.read a = h0.read a := by
  refine (solveLoop_heap_stable fuel cfg ls obj ops _ a ?_).trans
    (Heap.read_alloc_of_lt h0 (h0.read m0) a ha)
  show a < h0.next + 1
  omega

/-- **C8** witness: a three-iteration-budget run on the quadratic problem leaves the
caller's cell (address `0`, which is below `heap4.next = 1`) holding its original
value `4`. -/
theorem solve_preserves_caller_heap_witness :
    0 < heap4.next ∧
    (solve 3 ⟨none, some 0, none, true, false, false, false⟩ lsHalf quadObj ops1
      heap4 0).1.finalHeap.read 0 = heap4.read 0 :=
  ⟨by decide, solve_preserves_caller_heap 3 0 0 _ lsHalf quadObj ops1 heap4
    (by decide)⟩

/-- If the loop reaches the descent-direction check, the convergence test let it
continue, so with `gtol` set the gradient norm is strictly above `gtol`; when
`gtol >= 0` and the inner product is positive on vectors of positive norm, the slope
`djs = -inner(grad, grad)` is then strictly negative and the `RuntimeError` branch
cannot fire, on any pass of the loop. -/
theorem solveLoop_no_descent_error {V : Type} (fuel : ℕ) (cfg : Config)
    (ls : LineSearch) (obj : Objective V) (ops : IterOps V) (g : ℚ)
    (hg : cfg.gtol = some g) (hg0 : 0 ≤ g)
    (hpos : ∀ x : V, 0 < ops.normL2 x → 0 < ops.inner x x) :
    ∀ st : LoopState V,
      (solveLoop fuel cfg ls obj ops st).1.isDescentError = false := by
  induction fuel with
  | zero => intro st; rfl
  | succ f ih =>
    intro st
    simp only [solveLoop]
    split
    · rename_i hcont
      split
      · rename_i hdjs
        exfalso
        have h1 : gtolClause cfg.gtol
            (ops.normL2 (obj.gradient (st.heap.read st.m))) = true :=
          (Bool.and_eq_true_iff.mp
            ((Bool.and_eq_true_iff.mp hcont).1)).1
        rw [hg] at h1
        simp only [gtolClause, decide_eq_true_eq] at h1
        have hn : 0 < ops.normL2 (obj.gradient (st.heap.read st.m)) :=
          lt_of_le_of_lt hg0 h1
        have hi := hpos _ hn
        linarith
      · exact ih _
    · rfl

/-- **C10** (confirmed).  If `gtol` is set to a non-negative value and the iterate
capability's inner product is positive definite with respect to its L2 norm, then
`solve` can never raise the descent-direction `RuntimeError`: the convergence test
only lets execution reach the check while `||grad|| > gtol >= 0`, which forces
`djs = -inner(grad, grad) < 0`. -/
theorem descent_error_unreachable {V : Type} (fuel m0 : ℕ) (cfg : Config)
    (ls : LineSearch) (obj : Objective V) (ops : IterOps V) (h0 : Heap V)
    (g : ℚ) (hg : cfg.gtol = some g) (hg0 : 0 ≤ g)
    (hpos : ∀ x : V, 0 < ops.normL2 x → 0 < ops.inner x x) :
    (solve fuel cfg ls obj ops h0 m0).1.isDescentError = false :=
  solveLoop_no_descent_error fuel cfg ls obj ops g hg hg0 hpos _

/-- **C10** witness: the theorem applied to the one-dimensional instance, whose
inner product `x*x` is positive whenever `|x| > 0`, with `gtol = 0`. -/
theorem descent_error_unreachable_witness :
    (0 : ℚ) ≤ 0 ∧
    (solve 3 ⟨none, some 0, some 3, true, false, false, false⟩ lsHalf quadObj ops1
      heap4 0).1.isDescentError = false :=
  ⟨le_refl 0,
    descent_error_unreachable 3 0 ⟨none, some 0, some 3, true, false, false, false⟩
      lsHalf quadObj ops1 heap4 0 rfl (le_refl 0)
      (fun _ hx => mul_self_pos.mpr (abs_pos.mp hx))⟩

/-- **C2** (corrected), counterexample.  The quadratic objective with a sign-inverted
gradient evaluator (`quadObjInv` returns `-2x` instead of `2x`, so the negative of
the reported gradient is an *ascent* direction): on the first iteration `solve` does
not raise the descent-direction error, and the line-search strategy *is* called —
the check `djs = -inner(grad, grad) >= 0` cannot see the sign flip. -/
theorem inverted_gradient_cex :
    (solve 1 ⟨none, none, some 5, true, false, false, false⟩ lsOne quadObjInv ops1
      heap4 0).1.isDescentError = false ∧
    Event.lsE ∈ (solve 1 ⟨none, none, some 5, true, false, false, false⟩ lsOne
      quadObjInv ops1 heap4 0).2 :=
  ⟨by decide, by decide⟩

/-- **C2** (corrected), amended claim.  Sign-inverting the gradient evaluator leaves
`inner(grad, grad)` unchanged, so whenever the true gradient at the initial iterate
has positive inner product with itself, the solver with the *inverted* objective
passes the descent-direction check on the first iteration without raising, and the
line-search strategy is invoked (here under a configuration whose convergence test
cannot break on the first pass: only `maxiter`, positive, is set). -/
theorem inverted_gradient_no_error {V : Type} (M m0 : ℕ) (d hb ha hc : Bool)
    (ls : LineSearch) (obj : Objective V) (ops : IterOps V) (h0 : Heap V)
    (hneg : ∀ x : V, ops.inner (ops.neg x) (ops.neg x) = ops.inner x x)
    (hpos : 0 < ops.inner (obj.gradient (h0.read m0))
      (obj.gradient (h0.read m0))) :
    (solve 1 ⟨none, none, some (M + 1), d, hb, ha, hc⟩ ls
      ⟨obj.val, fun x => ops.neg (obj.gradient x), obj.derivative⟩ ops h0
      m0).1.isDescentError = false ∧
    Event.lsE ∈ (solve 1 ⟨none, none, some (M + 1), d, hb, ha, hc⟩ ls
      ⟨obj.val, fun x => ops.neg (obj.gradient x), obj.derivative⟩ ops h0 m0).2 := by
  have hdjs : ¬ (-(ops.inner (ops.neg (obj.gradient (h0.read m0)))
      (ops.neg (obj.gradient (h0.read m0)))) ≥ 0) := by
    rw [hneg]
    linarith
  have hcont : continueCond ⟨none, none, some (M + 1), d, hb, ha, hc⟩
      (ops.normL2 (ops.neg (obj.gradient (h0.read m0))))
      (some (obj.val (h0.read m0))) none 0 = true := by
    simp [continueCond, gtolClause, tolClause, tolParen, py2GtOpt, maxiterClause]
  constructor
  · simp only [solve, solveLoop, Heap.read_alloc_self, hcont, if_true,
      if_neg hdjs]
    rfl
  · simp only [solve, solveLoop, Heap.read_alloc_self, hcont, if_true,
      if_neg hdjs]
    simp [List.mem_append]

/-- **C2** witness for the amended claim: the quadratic objective (true gradient
`2x`, positive inner product with itself at the initial iterate `4`), inverted by
the theorem's construction, with `maxiter = 5`. -/
theorem inverted_gradient_no_error_witness :
    (0 : ℚ) < ops1.inner (quadObj.gradient (heap4.read 0))
      (quadObj.gradient (heap4.read 0)) ∧
    (solve 1 ⟨none, none, some 5, true, false, false, false⟩ lsOne
      ⟨quadObj.val, fun x => ops1.neg (quadObj.gradient x), quadObj.derivative⟩
      ops1 heap4 0).1.isDescentError = false := by
  refine ⟨by decide, ?_⟩
  have h := inverted_gradient_no_error (V := ℚ) 4 0 true false false false lsOne
    quadObj ops1 heap4 (fun x => by simp [ops1]) (by decide)
  exact h.1

/-- The shape of the event trace produced by a run of `n` completed iterations when
both hooks are registered: each completed iteration contributes exactly the block
`before_iteration`, line-search call, optional callback, `after_iteration` — in that
order, with the `after_iteration` call carrying the same gradient `g` as the block's
`before_iteration` (the gradient evaluated at the start of that iteration) — and the
final pass through the convergence test contributes one trailing `before_iteration`
call. -/
inductive HookTrace {V : Type} (cb : Bool) : ℕ → List (Event V) → Prop where
  | last (j : ℚ) (g : V) : HookTrace cb 0 [Event.beforeE j g]
  | step (j : ℚ) (g : V) (j' : ℚ) (n : ℕ) (evs : List (Event V))
      (h : HookTrace cb n evs) :
      HookTrace cb (n + 1)
        (Event.beforeE j g :: Event.lsE ::
          ((if cb then [Event.cbE] else []) ++ Event.afterE j' g :: evs))

/-- When the loop breaks after reaching counter value `N`, it had completed at least
the iterations it started with. -/
theorem solveLoop_iters_le {V : Type} (fuel : ℕ) (cfg : Config)
    (ls : LineSearch) (obj : Objective V) (ops : IterOps V) :
    ∀ (st : LoopState V) (N : ℕ),
      (solveLoop fuel cfg ls obj ops st).1.solutionIters = some N → st.it ≤ N := by
  induction fuel with
  | zero =>
    intro st N h
    simp [solveLoop, Outcome.solutionIters] at h
  | succ f ih =>
    intro st N h
    simp only [solveLoop] at h
    split at h
    · split at h
      · simp [Outcome.solutionIters] at h
      · have h2 := ih _ N h
        simp only at h2
        omega
    · simp only [Outcome.solutionIters, Option.some_inj] at h
      omega

/-- When both hooks are registered and the loop breaks with final counter `N`, the
event trace of the remaining run is a `HookTrace` of its `N - st.it` remaining
iterations. -/
theorem solveLoop_hookTrace {V : Type} (fuel : ℕ) (cfg : Config)
    (ls : LineSearch) (obj : Objective V) (ops : IterOps V)
    (hb : cfg.hasBefore = true) (ha : cfg.hasAfter = true) :
    ∀ (st : LoopState V) (N : ℕ),
      (solveLoop fuel cfg ls obj ops st).1.solutionIters = some N →
      HookTrace cfg.hasCallback (N - st.it) (solveLoop fuel cfg ls obj ops st).2 := by
  induction fuel with
  | zero =>
    intro st N h
    simp [solveLoop, Outcome.solutionIters] at h
  | succ f ih =>
    intro st N h
    simp only [solveLoop] at h ⊢
    split at h
    · rename_i hcont
      split at h
      · simp [Outcome.solutionIters] at h
      · rename_i hdjs
        rw [if_pos hcont, if_neg hdjs]
        have h' : (solveLoop f cfg ls obj ops _).1.solutionIters = some N := h
        have hle : st.it + 1 ≤ N := by
          have h3 := solveLoop_iters_le f cfg ls obj ops _ N h'
          simpa using h3
        have hsplit2 : N - st.it = (N - (st.it + 1)) + 1 := by omega
        have htail := ih _ N h'
        simp only [hb, ha, if_true, List.singleton_append,
          List.append_assoc] at htail ⊢
        rw [hsplit2]
        exact HookTrace.step _ _ _ _ _ (by simpa using htail)
    · rename_i hcont
      rw [if_neg hcont]
      have h' : st.it = N := by simpa [Outcome.solutionIters] using h
      have h0 : N - st.it = 0 := by omega
      rw [h0]
      simp only [hb, if_true]
      exact HookTrace.last _ _

/-- **C7** (confirmed).  When both hooks are registered and `solve` terminates
normally after `N` iterations, the event trace consists of exactly one
`before_iteration` and one `after_iteration` per completed iteration — the
`before_iteration` first, the line-search call between them — where each
`after_iteration` receives the gradient evaluated at the start of that same
iteration (not the gradient of the updated iterate), plus one trailing
`before_iteration` fired by the final, non-completed pass through the convergence
test. -/
theorem hooks_once_per_iteration {V : Type} (fuel m0 N : ℕ) (cfg : Config)
    (ls : LineSearch) (obj : Objective V) (ops : IterOps V) (h0 : Heap V)
    (hb : cfg.hasBefore = true) (ha : cfg.hasAfter = true)
    (hs : (solve fuel cfg ls obj ops h0 m0).1.solutionIters = some N) :
    HookTrace cfg.hasCallback N (solve fuel cfg ls obj ops h0 m0).2 := by
  have h := solveLoop_hookTrace fuel cfg ls obj ops hb ha _ N hs
  simpa using h

/-- **C7** witness: the quadratic problem with exact line search and `gtol = 0`
terminates after one completed iteration; the theorem yields the hook-trace shape
for the recorded events. -/
theorem hooks_once_per_iteration_witness :
    (solve 2 ⟨none, some 0, none, true, true, true, false⟩ lsHalf quadObj ops1 heap4
      0).1.solutionIters = some 1 ∧
    HookTrace false 1
      ((solve 2 ⟨none, some 0, none, true, true, true, false⟩ lsHalf quadObj ops1
        heap4 0).2) :=
  ⟨by decide,
    hooks_once_per_iteration 2 0 1 ⟨none, some 0, none, true, true, true, false⟩
      lsHalf quadObj ops1 heap4 rfl rfl (by decide)⟩

end Moola
